import Mathlib

/-
Verification of the aws_mcp repository: a shallow embedding of the
validation, request-building, response-formatting and tool-dispatch logic
of `src/aws_mcp/utils.py`, `src/aws_mcp/cost_explorer.py` and
`src/aws_mcp/server.py`, together with theorems settling the claims of
the natural-language specification.

Modelling conventions:
- Python dictionaries are association lists `List (String × Jval)` whose
  keys are pairwise distinct (AWS request/response dicts never repeat a
  key); a key that is absent from the list models a key absent from the
  dict.
- Python exceptions are values of `PyErr`; fallible code returns
  `Except PyErr α`.  `AWSCostExplorerError` is `PyErr.awsError`,
  `ValueError` is `PyErr.valueError`, `KeyError` is `PyErr.keyError`,
  `TypeError` is `PyErr.typeError`.
- The wall clock is not modelled: the two default-date helpers of
  `utils.py` (`get_default_date_range`, `get_default_lookback_range`)
  enter the pipeline as explicit parameters of `Deps`, since their output
  is a pure function of "today".
- The boto3 Cost Explorer client is modelled as a function from the built
  request dict to a `ProviderResult` (success response, ClientError with
  code and message, or missing credentials), carried in `Deps`.
-/

namespace AwsMcp

/-- JSON-like values: the fragment of Python data (strings, ints, None,
bools, lists, dicts) that flows through the request/response pipeline. -/
inductive Jval where
  | str (s : String)
  | int (n : Int)
  | null
  | bool (b : Bool)
  | arr (xs : List Jval)
  | obj (fields : List (String × Jval))

/-- A Python dict with string keys, as an association list. -/
abbrev PyDict := List (String × Jval)

/-- Python exceptions that can arise in the modelled code paths. -/
inductive PyErr where
  | awsError (msg : String)
  | valueError (msg : String)
  | keyError (key : String)
  | typeError (msg : String)
deriving DecidableEq

/-- `DIMENSIONS_ALLOWED` from `constants.py`. -/
def DIMENSIONS_ALLOWED : List String :=
  ["SERVICE", "LINKED_ACCOUNT", "REGION", "USAGE_TYPE",
   "OPERATION", "INSTANCE_TYPE", "PURCHASE_TYPE", "RECORD_TYPE"]

/-- `METRICS_ALLOWED` from `constants.py`. -/
def METRICS_ALLOWED : List String :=
  ["UnblendedCost", "AmortizedCost", "NetAmortizedCost", "NetUnblendedCost",
   "NormalizedUsageAmount", "UsageQuantity", "BlendedCost"]

/-- Numeric value of a decimal digit character. -/
def digitVal (c : Char) : Nat := c.toNat - 48

/-- Lowercase hexadecimal digit character for `n < 16`. -/
def hexDigitChar (n : Nat) : Char :=
  if n < 10 then Char.ofNat (48 + n) else Char.ofNat (87 + n)

/-- Two lowercase hex digits, as used by Python repr escapes. -/
def hex2 (n : Nat) : String :=
  String.mk [hexDigitChar (n / 16 % 16), hexDigitChar (n % 16)]

/-- Four lowercase hex digits, as used by JSON unicode escapes. -/
def hex4 (n : Nat) : String :=
  String.mk [hexDigitChar (n / 4096 % 16), hexDigitChar (n / 256 % 16),
             hexDigitChar (n / 16 % 16), hexDigitChar (n % 16)]

/-- Quote character Python `repr` picks for a string: single quote, unless
the string contains a single quote and no double quote. -/
def pyReprQuote (s : String) : Char :=
  if s.toList.contains '\x27' ∧ ¬ s.toList.contains '"' then '"' else '\x27'

/-- Python `repr` escaping of one character under the chosen quote
(modelled for the printable range; characters at or above `0x80` are kept
literal, which matches Python for printable text). -/
def pyReprEscChar (q : Char) (c : Char) : String :=
  if c = '\\' then "\\\\"
  else if c = q then "\\" ++ String.singleton q
  else if c = '\n' then "\\n"
  else if c = '\r' then "\\r"
  else if c = '\t' then "\\t"
  else if c.toNat < 32 ∨ c.toNat = 127 then "\\x" ++ hex2 c.toNat
  else String.singleton c

/-- Python `repr` of a string. -/
def pyStrRepr (s : String) : String :=
  let q := pyReprQuote s
  String.singleton q ++ String.join (s.toList.map (pyReprEscChar q)) ++ String.singleton q

/-- Python `repr` of a list of strings, as produced by an f-string such as
`f"Invalid metrics: \x7binvalid_metrics\x7d"`. -/
def pyListRepr (xs : List String) : String :=
  "[" ++ String.intercalate ", " (xs.map pyStrRepr) ++ "]"

/-- Truthiness of an optional Python string: `None` and `""` are falsy. -/
def strTruthy : Option String → Bool
  | none => false
  | some s => s != ""

/-- Python `x or default` for an optional list argument: `None` and the
empty list are replaced by the default (`metrics = metrics or [...]`). -/
def pyOrList (x : Option (List String)) (dflt : List String) : List String :=
  match x with
  | none => dflt
  | some xs => if xs = [] then dflt else xs

/-- The `_validate_granularity` check of `CostExplorerService`. -/
def validate_granularity (granularity : String) : Except PyErr Unit :=
  if !((["DAILY", "MONTHLY"] : List String).contains granularity) then
    .error (.awsError "granularity must be \x27DAILY\x27 or \x27MONTHLY\x27")
  else .ok ()

/-- The `_validate_group_by` check of `CostExplorerService`: `None` and the
empty list pass; otherwise the entries outside `DIMENSIONS_ALLOWED` are
reported first, and only then the length bound. -/
def validate_group_by (group_by : Option (List String)) : Except PyErr Unit :=
  match group_by with
  | none => .ok ()
  | some gb =>
    if gb = [] then .ok ()
    else
      if gb.filter (fun d => !(DIMENSIONS_ALLOWED.contains d)) ≠ [] then
        .error (.awsError ("Invalid group_by dimensions: " ++
          pyListRepr (gb.filter (fun d => !(DIMENSIONS_ALLOWED.contains d)))))
      else if gb.length > 2 then
        .error (.awsError "Maximum 2 group_by dimensions allowed")
      else .ok ()

/-- The `_validate_metrics` check of `CostExplorerService`. -/
def validate_metrics (metrics : List String) : Except PyErr Unit :=
  if metrics.filter (fun m => !(METRICS_ALLOWED.contains m)) ≠ [] then
    .error (.awsError ("Invalid metrics: " ++
      pyListRepr (metrics.filter (fun m => !(METRICS_ALLOWED.contains m)))))
  else .ok ()

/-- The `_validate_dimension` check of `CostExplorerService`. -/
def validate_dimension (dimension : String) : Except PyErr Unit :=
  if !(DIMENSIONS_ALLOWED.contains dimension) then
    .error (.awsError ("Invalid dimension: " ++ dimension ++ ". Allowed: " ++
      pyListRepr DIMENSIONS_ALLOWED))
  else .ok ()

/-- The `_validate_max_results` check of `CostExplorerService`
(`1 <= max_results <= 1000`). -/
def validate_max_results (max_results : Int) : Except PyErr Unit :=
  if ¬ (1 ≤ max_results ∧ max_results ≤ 1000) then
    .error (.awsError "max_results must be between 1 and 1000")
  else .ok ()

/-- The Python parameter default `max_results: int = 50` of
`_get_dimension_values`, applied when the caller omits the argument. -/
def resolve_max_results (m : Option Int) : Int := m.getD 50

/-- Gregorian leap-year rule, as used by Python `datetime`. -/
def isLeapYear (y : Nat) : Bool := (y % 4 == 0 && y % 100 != 0) || (y % 400 == 0)

/-- Number of days in a month, as enforced by the Python `datetime`
constructor. -/
def daysInMonth (y m : Nat) : Nat :=
  if m = 2 then (if isLeapYear y then 29 else 28)
  else if m = 4 ∨ m = 6 ∨ m = 9 ∨ m = 11 then 30
  else 31

/-- The `%d` directive of CPython `strptime` applied to the tail of the
input: it matches `3[01]|[12][0-9]|0[1-9]|[1-9]` and the whole remaining
input must be consumed (otherwise `strptime` raises "unconverted data
remains"). -/
def parseDayChars : List Char → Option Nat
  | [d1] => if d1.isDigit ∧ d1 ≠ '0' then some (digitVal d1) else none
  | [d1, d2] =>
    if d1.isDigit ∧ d2.isDigit then
      let v := 10 * digitVal d1 + digitVal d2
      if 1 ≤ v ∧ v ≤ 31 then some v else none
    else none
  | _ => none

/-- The `%m-%d` part of CPython `strptime("%Y-%m-%d")`: the month matches
`1[0-2]|0[1-9]|[1-9]` followed by a literal dash, then the day. A
two-digit month is taken exactly when its value is in `1..12`; otherwise
the single-digit alternative would leave the second digit facing the
literal dash, so the parse fails. -/
def parseMonthDay : List Char → Option (Nat × Nat)
  | m1 :: m2 :: '-' :: rest =>
    if m1.isDigit ∧ m2.isDigit then
      let v := 10 * digitVal m1 + digitVal m2
      if 1 ≤ v ∧ v ≤ 12 then (parseDayChars rest).map (fun d => (v, d)) else none
    else none
  | m1 :: '-' :: rest =>
    if m1.isDigit ∧ m1 ≠ '0' then (parseDayChars rest).map (fun d => (digitVal m1, d)) else none
  | _ => none

/-- CPython `datetime.strptime(s, "%Y-%m-%d")`: a year of exactly four
digits, dash, month, dash, day, with nothing left over; then the
`datetime` constructor checks `1 <= year` and that the day exists in the
month. Returns the parsed `(year, month, day)` on success. -/
def strptime_Ymd (s : String) : Option (Nat × Nat × Nat) :=
  match s.toList with
  | y1 :: y2 :: y3 :: y4 :: '-' :: rest =>
    if y1.isDigit ∧ y2.isDigit ∧ y3.isDigit ∧ y4.isDigit then
      let y := 1000 * digitVal y1 + 100 * digitVal y2 + 10 * digitVal y3 + digitVal y4
      match parseMonthDay rest with
      | some (m, d) => if 1 ≤ y ∧ d ≤ daysInMonth y m then some (y, m, d) else none
      | none => none
    else none
  | _ => none

/-- `validate_date` from `utils.py`: returns the input string unchanged
when `strptime` accepts it, otherwise raises `ValueError`. -/
def validate_date (date_str : String) : Except PyErr String :=
  match strptime_Ymd date_str with
  | some _ => .ok date_str
  | none => .error (.valueError ("Invalid date format: " ++ date_str ++ ". Expected YYYY-MM-DD"))

/-- Modelled from the spec words, for comparison with `validate_date`:
a string that "matches `YYYY-MM-DD` exactly" with "valid calendar values"
(strict zero-padded four-two-two digit layout, month in `1..12`, day
valid for the month, year at least 1). -/
def specStrictIsoDate (s : String) : Bool :=
  match s.toList with
  | [y1, y2, y3, y4, '-', m1, m2, '-', d1, d2] =>
    y1.isDigit && y2.isDigit && y3.isDigit && y4.isDigit &&
    m1.isDigit && m2.isDigit && d1.isDigit && d2.isDigit &&
    (let y := 1000 * digitVal y1 + 100 * digitVal y2 + 10 * digitVal y3 + digitVal y4
     let m := 10 * digitVal m1 + digitVal m2
     let d := 10 * digitVal d1 + digitVal d2
     decide (1 ≤ y) && decide (1 ≤ m) && decide (m ≤ 12) &&
     decide (1 ≤ d) && decide (d ≤ daysInMonth y m))
  | _ => false

/-- JSON string escaping as performed by `json.dumps` with the default
`ensure_ascii=True`: quote, backslash and control characters get short
escapes, everything outside `0x20..0x7e` becomes `\uXXXX` (with surrogate
pairs above the BMP). -/
def jsonEscapeChar (c : Char) : String :=
  if c = '"' then "\\\""
  else if c = '\\' then "\\\\"
  else if c = '\x08' then "\\b"
  else if c = '\x0c' then "\\f"
  else if c = '\n' then "\\n"
  else if c = '\r' then "\\r"
  else if c = '\t' then "\\t"
  else if c.toNat < 32 ∨ c.toNat > 126 then
    if c.toNat ≥ 65536 then
      let v := c.toNat - 65536
      "\\u" ++ hex4 (55296 + v / 1024) ++ "\\u" ++ hex4 (56320 + v % 1024)
    else "\\u" ++ hex4 c.toNat
  else String.singleton c

/-- JSON escaping of a whole string. -/
def jsonEscape (s : String) : String := String.join (s.toList.map jsonEscapeChar)

/-- Indentation prefix used by `json.dumps(..., indent=w)` at nesting
level `lvl`. -/
def indentStr (w lvl : Nat) : String := String.mk (List.replicate (w * lvl) ' ')

mutual

/-- `json.dumps` of one value with item separator `isep`, key separator
`ksep` and indent width `w`, at nesting level `lvl`. -/
def dumpJson (isep ksep : String) (w : Nat) : Nat → Jval → String
  | _, .str s => "\"" ++ jsonEscape s ++ "\""
  | _, .int n => toString n
  | _, .null => "null"
  | _, .bool b => if b then "true" else "false"
  | _, .arr [] => "[]"
  | lvl, .arr (x :: xs) =>
    "[\n" ++ indentStr w (lvl + 1) ++ dumpItems isep ksep w (lvl + 1) (x :: xs) ++
    "\n" ++ indentStr w lvl ++ "]"
  | _, .obj [] => "\x7b\x7d"
  | lvl, .obj (f :: fs) =>
    "\x7b\n" ++ indentStr w (lvl + 1) ++ dumpFields isep ksep w (lvl + 1) (f :: fs) ++
    "\n" ++ indentStr w lvl ++ "\x7d"

/-- Array elements joined by the item separator plus a newline and
indentation. -/
def dumpItems (isep ksep : String) (w : Nat) : Nat → List Jval → String
  | _, [] => ""
  | lvl, [x] => dumpJson isep ksep w lvl x
  | lvl, x :: y :: xs =>
    dumpJson isep ksep w lvl x ++ isep ++ "\n" ++ indentStr w lvl ++
    dumpItems isep ksep w lvl (y :: xs)

/-- Object entries `"key"<ksep><value>` joined like array elements. -/
def dumpFields (isep ksep : String) (w : Nat) : Nat → List (String × Jval) → String
  | _, [] => ""
  | lvl, [(k, v)] => "\"" ++ jsonEscape k ++ "\"" ++ ksep ++ dumpJson isep ksep w lvl v
  | lvl, (k, v) :: f :: fs =>
    "\"" ++ jsonEscape k ++ "\"" ++ ksep ++ dumpJson isep ksep w lvl v ++ isep ++ "\n" ++
    indentStr w lvl ++ dumpFields isep ksep w lvl (f :: fs)

end

/-- `json.dumps(x, indent=2)` with default separators, which with an
indent are `","` and `": "`; used for the error envelope in
`handle_call_tool`. -/
def errorText (msg : String) : String :=
  dumpJson "," ": " 2 0 (.obj [("error", .str msg)])

/-- `json.dumps(result, separators=(",", ":"), default=str, indent=2)`
as used by the two tool wrappers in `server.py` for successful results. -/
def resultText (result : PyDict) : String :=
  dumpJson "," ":" 2 0 (.obj result)

/-- Python `len` on a value: defined for strings, lists and dicts, a
`TypeError` otherwise. -/
def pyLen : Jval → Except PyErr Nat
  | .arr xs => .ok xs.length
  | .str s => .ok s.length
  | .obj fs => .ok fs.length
  | _ => .error (.typeError "object has no len")

/-- `_build_cost_request` from `cost_explorer.py`: the three mandatory
fields, then `GroupBy` only for a truthy `group_by` (truncated to the
first two entries), `Filter` only for a truthy `filter_config` (whose
`"dimension"` access can raise `KeyError` and whose `"values"` defaults
to the empty list), and `NextPageToken` only for a truthy token. -/
def build_cost_request (start end_ granularity : String) (group_by : Option (List String))
    (metrics : List String) (filter_config : Option PyDict)
    (next_page_token : Option String) : Except PyErr PyDict :=
  let base : PyDict :=
    [("TimePeriod", .obj [("Start", .str start), ("End", .str end_)]),
     ("Granularity", .str granularity),
     ("Metrics", .arr (metrics.map Jval.str))]
  let withGroup : PyDict :=
    match group_by with
    | some gb =>
      if gb ≠ [] then
        base ++ [("GroupBy", .arr ((gb.take 2).map
          (fun dimension => .obj [("Type", .str "DIMENSION"), ("Key", .str dimension)])))]
      else base
    | none => base
  let addToken : PyDict → PyDict := fun ps =>
    if strTruthy next_page_token then ps ++ [("NextPageToken", .str (next_page_token.getD ""))]
    else ps
  match filter_config with
  | some fc =>
    if fc.isEmpty then .ok (addToken withGroup)
    else
      match fc.lookup "dimension" with
      | some keyVal =>
        .ok (addToken (withGroup ++ [("Filter", .obj [("Dimensions", .obj
          [("Key", keyVal),
           ("Values", (fc.lookup "values").getD (.arr [])),
           ("MatchOptions", .arr [.str "EQUALS"])])])]))
      | none => .error (.keyError "dimension")
  | none => .ok (addToken withGroup)

/-- `_build_dimension_request` from `cost_explorer.py`: mandatory
`Dimension`, `TimePeriod` and `MaxResults`, then `SearchString` and
`NextPageToken` only when truthy. -/
def build_dimension_request (dimension time_period_start time_period_end : String)
    (search_string : Option String) (max_results : Int)
    (next_page_token : Option String) : PyDict :=
  let base : PyDict :=
    [("Dimension", .str dimension),
     ("TimePeriod", .obj [("Start", .str time_period_start), ("End", .str time_period_end)]),
     ("MaxResults", .int max_results)]
  let withSearch :=
    if strTruthy search_string then base ++ [("SearchString", .str (search_string.getD ""))]
    else base
  if strTruthy next_page_token then
    withSearch ++ [("NextPageToken", .str (next_page_token.getD ""))]
  else withSearch

/-- `_format_cost_response` from `cost_explorer.py`. The only fallible
step is `len(response.get("ResultsByTime", []))`, which in Python would
raise `TypeError` on a non-sized value. -/
def format_cost_response (response : PyDict) (start end_ granularity : String)
    (metrics : List String) (group_by : Option (List String)) : Except PyErr PyDict :=
  let rbt := (response.lookup "ResultsByTime").getD (.arr [])
  match pyLen rbt with
  | .error e => .error e
  | .ok n =>
    .ok [("time_period", (response.lookup "TimePeriod").getD
            (.obj [("start", .str start), ("end", .str end_)])),
         ("granularity", .str granularity),
         ("metrics", .arr (metrics.map Jval.str)),
         ("group_by", .arr ((group_by.getD []).map Jval.str)),
         ("results_by_time", rbt),
         ("next_page_token", (response.lookup "NextPageToken").getD .null),
         ("total_results", .int (n : Int))]

/-- `_format_dimension_response` from `cost_explorer.py`. -/
def format_dimension_response (response : PyDict)
    (dimension time_period_start time_period_end : String) : PyDict :=
  [("dimension", .str dimension),
   ("time_period", .obj [("start", .str time_period_start), ("end", .str time_period_end)]),
   ("dimension_values", (response.lookup "DimensionValues").getD (.arr [])),
   ("next_page_token", (response.lookup "NextPageToken").getD .null),
   ("total_size", (response.lookup "TotalSize").getD (.int 0)),
   ("return_size", (response.lookup "ReturnSize").getD (.int 0))]

/-- Outcome of one boto3 Cost Explorer API call: a response dict, a
`botocore.ClientError` with error code and message, or missing
credentials discovered when the lazy client is first created. -/
inductive ProviderResult where
  | success (response : PyDict)
  | clientError (code msg : String)
  | noCredentials

/-- Ambient dependencies of the pipeline: the two wall-clock-dependent
default date ranges from `utils.py`, and the two provider operations of
the boto3 Cost Explorer client. -/
structure Deps where
  defaultRange : String → String × String
  defaultLookback : String × String
  costProvider : PyDict → ProviderResult
  dimProvider : PyDict → ProviderResult

/-- Error message used by `AWSCostExplorerClient._create_client` when
boto3 reports missing credentials. -/
def noCredentialsMsg : String :=
  "AWS credentials not found. Please configure AWS credentials or specify a profile."

/-- Mapping of a provider outcome to the formatted result, shared by both
service operations: `ClientError` becomes
`AWSCostExplorerError("Cost Explorer API error (<code>): <message>")`. -/
def runProvider (provider : PyDict → ProviderResult) (req : PyDict)
    (fmt : PyDict → Except PyErr PyDict) : Except PyErr PyDict :=
  match provider req with
  | .success resp => fmt resp
  | .clientError code msg =>
    .error (.awsError ("Cost Explorer API error (" ++ code ++ "): " ++ msg))
  | .noCredentials => .error (.awsError noCredentialsMsg)

/-- `CostExplorerService.get_cost_and_usage`: defaults the metrics,
validates, resolves the date range (defaulting when either bound is
falsy), builds the request and executes the provider call. -/
def service_get_cost_and_usage (defaultRange : String → String × String)
    (provider : PyDict → ProviderResult)
    (start end_ : Option String) (granularity : String)
    (group_by : Option (List String)) (metrics0 : Option (List String))
    (filter_config : Option PyDict) (next_page_token : Option String) :
    Except PyErr PyDict := do
  let metrics := pyOrList metrics0 ["UnblendedCost"]
  validate_granularity granularity
  validate_group_by group_by
  validate_metrics metrics
  let se ←
    match start, end_ with
    | some s0, some e0 =>
      if s0 ≠ "" ∧ e0 ≠ "" then do
        let s1 ← validate_date s0
        let e1 ← validate_date e0
        pure (s1, e1)
      else pure (defaultRange granularity)
    | _, _ => pure (defaultRange granularity)
  let req ← build_cost_request se.1 se.2 granularity group_by metrics filter_config
    next_page_token
  runProvider provider req
    (fun resp => format_cost_response resp se.1 se.2 granularity metrics group_by)

/-- `CostExplorerService.get_dimension_values`: validates the dimension
and the result bound, resolves the time period (defaulting to the 30-day
lookback when either bound is falsy), builds the request and executes the
provider call. -/
def service_get_dimension_values (defaultLookback : String × String)
    (provider : PyDict → ProviderResult)
    (dimension : String) (time_period_start time_period_end : Option String)
    (search_string : Option String) (max_results : Int)
    (next_page_token : Option String) : Except PyErr PyDict := do
  validate_dimension dimension
  validate_max_results max_results
  let se ←
    match time_period_start, time_period_end with
    | some s0, some e0 =>
      if s0 ≠ "" ∧ e0 ≠ "" then do
        let s1 ← validate_date s0
        let e1 ← validate_date e0
        pure (s1, e1)
      else pure defaultLookback
    | _, _ => pure defaultLookback
  let req := build_dimension_request dimension se.1 se.2 search_string max_results
    next_page_token
  runProvider provider req
    (fun resp => .ok (format_dimension_response resp dimension se.1 se.2))

/-- Arguments of the `get_cost_and_usage` tool (`end` is `endDate` here
because `end` is reserved in Lean); `none` models an absent keyword. The
`profile` argument only selects the credential profile of the lazily
created client and is absorbed into `Deps`. -/
structure CostArgs where
  start : Option String
  endDate : Option String
  granularity : Option String
  group_by : Option (List String)
  metrics : Option (List String)
  filter_config : Option PyDict
  next_page_token : Option String

/-- Arguments of the `get_dimension_values` tool. -/
structure DimArgs where
  dimension : String
  time_period_start : Option String
  time_period_end : Option String
  search_string : Option String
  max_results : Option Int
  next_page_token : Option String

/-- `AWSCostExplorerMCPServer._get_cost_and_usage`: run the service with
the parameter defaults of the Python signature and serialize the result. -/
def server_get_cost_and_usage (deps : Deps) (a : CostArgs) : Except PyErr String :=
  (service_get_cost_and_usage deps.defaultRange deps.costProvider a.start a.endDate
      (a.granularity.getD "MONTHLY") a.group_by a.metrics a.filter_config
      a.next_page_token).map resultText

/-- `AWSCostExplorerMCPServer._get_dimension_values`. -/
def server_get_dimension_values (deps : Deps) (a : DimArgs) : Except PyErr String :=
  (service_get_dimension_values deps.defaultLookback deps.dimProvider a.dimension
      a.time_period_start a.time_period_end a.search_string
      (resolve_max_results a.max_results) a.next_page_token).map resultText

/-- The body of the `try` block of `handle_call_tool`: pick the pipeline
by tool name, or raise `ValueError("Unknown tool: <name>")`. -/
def tool_attempt (deps : Deps) (name : String) (costA : CostArgs) (dimA : DimArgs) :
    Except PyErr String :=
  if name = "get_cost_and_usage" then server_get_cost_and_usage deps costA
  else if name = "get_dimension_values" then server_get_dimension_values deps dimA
  else .error (.valueError ("Unknown tool: " ++ name))

/-- What `handle_call_tool` hands back to the MCP host: either a list of
text contents, or an exception that escaped the handler. -/
inductive ToolResult where
  | content (texts : List String)
  | raised (e : PyErr)

/-- `AWSCostExplorerMCPServer.handle_call_tool`: wrap the attempted tool
call; `except (AWSCostExplorerError, ValueError)` turns those two kinds
into the `\x7b"error": ...\x7d` envelope, every other exception
propagates. The handler owns no mutable state, so it is a pure function
of its inputs. -/
def handle_call_tool (deps : Deps) (name : String) (costA : CostArgs) (dimA : DimArgs) :
    ToolResult :=
  match tool_attempt deps name costA dimA with
  | .ok text => .content [text]
  | .error (.awsError msg) => .content [errorText msg]
  | .error (.valueError msg) => .content [errorText msg]
  | .error e => .raised e

/-- Whether `needle` is an initial segment of `hay`. -/
def listStartsWith : List Char → List Char → Bool
  | [], _ => true
  | _ :: _, [] => false
  | n :: ns, h :: hs => n == h && listStartsWith ns hs

/-- Whether `needle` occurs contiguously in `hay`. -/
def listHasSub (hay needle : List Char) : Bool :=
  match hay with
  | [] => needle.isEmpty
  | _ :: t => listStartsWith needle hay || listHasSub t needle

/-- Whether `needle` occurs as a substring of `hay`. -/
def strContainsSub (hay needle : String) : Bool := listHasSub hay.toList needle.toList

/-- Fixed provider stub and default ranges, for exercising the pipeline at
concrete inputs. -/
def stubDeps : Deps where
  defaultRange := fun _ => ("2024-01-01", "2024-01-31")
  defaultLookback := ("2024-01-01", "2024-01-31")
  costProvider := fun _ => .success []
  dimProvider := fun _ => .success []

/-- Cost-tool arguments with every optional argument absent. -/
def stubCostArgs : CostArgs :=
  { start := none, endDate := none, granularity := none, group_by := none,
    metrics := none, filter_config := none, next_page_token := none }

/-- Dimension-tool arguments with only the required `dimension` set. -/
def stubDimArgs : DimArgs :=
  { dimension := "SERVICE", time_period_start := none, time_period_end := none,
    search_string := none, max_results := none, next_page_token := none }

/-- Every month of the Python calendar has at most 31 days. -/
theorem daysInMonth_le_31 (y m : Nat) : daysInMonth y m ≤ 31 := by
  unfold daysInMonth
  split
  · split <;> omega
  · split <;> omega

/-- A strictly formatted calendar date is accepted by the CPython
`strptime` model (zero-padded components fall in the two-digit
alternatives of the `%m` and `%d` directives). -/
theorem strict_accepted (s : String) (h : specStrictIsoDate s = true) :
    validate_date s = .ok s := by
  unfold specStrictIsoDate at h
  split at h
  next y1 y2 y3 y4 m1 m2 d1 d2 heq =>
    simp only [Bool.and_eq_true, decide_eq_true_eq, and_assoc] at h
    obtain ⟨hy1, hy2, hy3, hy4, hm1, hm2, hd1, hd2, hy, h1m, hm12, h1d, hdm⟩ := h
    have hd31 : 10 * digitVal d1 + digitVal d2 ≤ 31 :=
      le_trans hdm (daysInMonth_le_31 _ _)
    have hmd : parseMonthDay [m1, m2, '-', d1, d2] =
        some (10 * digitVal m1 + digitVal m2, 10 * digitVal d1 + digitVal d2) := by
      simp only [parseMonthDay, parseDayChars]
      rw [if_pos ⟨hm1, hm2⟩, if_pos ⟨h1m, hm12⟩, if_pos ⟨hd1, hd2⟩, if_pos ⟨h1d, hd31⟩]
      rfl
    have hst : strptime_Ymd s =
        some (1000 * digitVal y1 + 100 * digitVal y2 + 10 * digitVal y3 + digitVal y4,
          10 * digitVal m1 + digitVal m2, 10 * digitVal d1 + digitVal d2) := by
      rw [strptime_Ymd.eq_def, heq]
      simp only [hmd]
      rw [if_pos ⟨hy1, hy2, hy3, hy4⟩, if_pos ⟨hy, hdm⟩]
    unfold validate_date
    rw [hst]
  next => exact absurd h (by simp)

/-- C2: the spec demands that exactly the strictly formatted
`YYYY-MM-DD` calendar dates be accepted, but CPython `strptime` also
accepts non-zero-padded month and day components, so `"2024-1-1"` is
returned unchanged instead of being rejected. -/
theorem C2_counterexample :
    specStrictIsoDate "2024-1-1" = false ∧ validate_date "2024-1-1" = .ok "2024-1-1" :=
  ⟨by decide, rfl⟩

/-- C2 (amended): every strictly formatted calendar date is returned
unchanged (idempotence on valid ISO dates); acceptance overall is exactly
the lenient CPython `strptime("%Y-%m-%d")` parse, which also admits
non-zero-padded single-digit months and days, and every rejected string
fails with the `ValueError` message built from the input. -/
theorem C2_validate_date_lenient (s : String) :
    (specStrictIsoDate s = true → validate_date s = .ok s) ∧
    ((strptime_Ymd s).isSome = true → validate_date s = .ok s) ∧
    (strptime_Ymd s = none →
      validate_date s = .error (.valueError
        ("Invalid date format: " ++ s ++ ". Expected YYYY-MM-DD"))) := by
  refine ⟨strict_accepted s, fun h => ?_, fun h => ?_⟩
  · unfold validate_date
    rcases hst : strptime_Ymd s with _ | v
    · rw [hst] at h; simp at h
    · rfl
  · unfold validate_date
    rw [h]

/-- Witness for C2 at a concrete strict date. -/
theorem C2_validate_date_lenient_witness :
    validate_date "2023-12-25" = .ok "2023-12-25" :=
  (C2_validate_date_lenient "2023-12-25").1 (by decide)

/-- C3: a `group_by` of length 3 whose invalid entry is reported first:
the failure message does not name "Maximum 2", contradicting the claim
that every over-long sequence fails with a "Maximum 2" message. -/
theorem C3_counterexample :
    validate_group_by (some ["SERVICE", "SERVICE", "BOGUS"]) =
      .error (.awsError "Invalid group_by dimensions: [\x27BOGUS\x27]") ∧
    strContainsSub "Invalid group_by dimensions: [\x27BOGUS\x27]" "Maximum 2" = false :=
  ⟨rfl, by decide⟩

/-- C3 (amended): any entry outside the allow-list makes validation fail
naming exactly the invalid entries (all of them); a sequence longer than
2 always fails, but the "Maximum 2" message appears only when every entry
is valid, because the invalid-entry check runs first. -/
theorem C3_group_by_validation (gb : List String) :
    (gb.filter (fun d => !(DIMENSIONS_ALLOWED.contains d)) ≠ [] →
      validate_group_by (some gb) = .error (.awsError
        ("Invalid group_by dimensions: " ++
          pyListRepr (gb.filter (fun d => !(DIMENSIONS_ALLOWED.contains d)))))) ∧
    (gb.length > 2 → gb.filter (fun d => !(DIMENSIONS_ALLOWED.contains d)) = [] →
      validate_group_by (some gb) =
        .error (.awsError "Maximum 2 group_by dimensions allowed")) ∧
    (gb.length > 2 → ∃ msg, validate_group_by (some gb) = .error (.awsError msg)) := by
  have p1 : gb.filter (fun d => !(DIMENSIONS_ALLOWED.contains d)) ≠ [] →
      validate_group_by (some gb) = .error (.awsError
        ("Invalid group_by dimensions: " ++
          pyListRepr (gb.filter (fun d => !(DIMENSIONS_ALLOWED.contains d))))) := by
    intro h
    have hne : gb ≠ [] := by rintro rfl; simp at h
    simp only [validate_group_by]
    rw [if_neg hne, if_pos h]
  have p2 : gb.length > 2 → gb.filter (fun d => !(DIMENSIONS_ALLOWED.contains d)) = [] →
      validate_group_by (some gb) =
        .error (.awsError "Maximum 2 group_by dimensions allowed") := by
    intro hlen hfil
    have hne : gb ≠ [] := by rintro rfl; simp at hlen
    simp only [validate_group_by]
    rw [if_neg hne, if_neg (by rw [hfil]; exact fun hc => hc rfl), if_pos hlen]
  refine ⟨p1, p2, fun hlen => ?_⟩
  by_cases hfil : gb.filter (fun d => !(DIMENSIONS_ALLOWED.contains d)) = []
  · exact ⟨_, p2 hlen hfil⟩
  · exact ⟨_, p1 hfil⟩

/-- Witness for C3 at a concrete over-long all-valid sequence. -/
theorem C3_group_by_validation_witness :
    validate_group_by (some ["SERVICE", "REGION", "USAGE_TYPE"]) =
      .error (.awsError "Maximum 2 group_by dimensions allowed") :=
  (C3_group_by_validation ["SERVICE", "REGION", "USAGE_TYPE"]).2.1 (by decide) (by decide)

/-- C7: metrics sequences with entries outside the allow-list fail naming
every invalid entry; an absent or empty `metrics` argument is replaced by
`["UnblendedCost"]` via `metrics or ["UnblendedCost"]`, which always
passes validation. -/
theorem C7_metrics_validation (metrics0 : Option (List String)) (ms : List String) :
    (ms.filter (fun m => !(METRICS_ALLOWED.contains m)) ≠ [] →
      validate_metrics ms = .error (.awsError ("Invalid metrics: " ++
        pyListRepr (ms.filter (fun m => !(METRICS_ALLOWED.contains m)))))) ∧
    (metrics0 = none ∨ metrics0 = some [] →
      pyOrList metrics0 ["UnblendedCost"] = ["UnblendedCost"] ∧
      validate_metrics (pyOrList metrics0 ["UnblendedCost"]) = .ok ()) := by
  constructor
  · intro h
    unfold validate_metrics
    rw [if_pos h]
  · rintro (rfl | rfl) <;> exact ⟨rfl, rfl⟩

/-- Witness for C7 at a concrete invalid metric and the defaulted path. -/
theorem C7_metrics_validation_witness :
    validate_metrics ["Bogus"] = .error (.awsError "Invalid metrics: [\x27Bogus\x27]") ∧
    validate_metrics (pyOrList none ["UnblendedCost"]) = .ok () :=
  ⟨(C7_metrics_validation none ["Bogus"]).1 (by decide),
   ((C7_metrics_validation none ["Bogus"]).2 (Or.inl rfl)).2⟩

/-- C8: `max_results` outside `[1, 1000]` fails validation, both
boundaries pass, and an absent argument resolves to the parameter default
50, which passes. -/
theorem C8_max_results_validation (n : Int) :
    (¬ (1 ≤ n ∧ n ≤ 1000) →
      validate_max_results n =
        .error (.awsError "max_results must be between 1 and 1000")) ∧
    validate_max_results 1 = .ok () ∧
    validate_max_results 1000 = .ok () ∧
    resolve_max_results none = 50 ∧
    validate_max_results (resolve_max_results none) = .ok () := by
  refine ⟨fun h => ?_, rfl, rfl, rfl, rfl⟩
  simp [validate_max_results, h]

/-- Witness for C8 at the concrete out-of-range value 1001. -/
theorem C8_max_results_validation_witness :
    validate_max_results 1001 = .error (.awsError "max_results must be between 1 and 1000") :=
  (C8_max_results_validation 1001).1 (by decide)

/-- C10: any tool name other than the two fixed identifiers makes the
dispatch handler return the `\x7b"error": "Unknown tool: <name>"\x7d`
envelope rather than raising; the handler is a pure function of its
arguments, so no state changes. -/
theorem C10_unknown_tool (deps : Deps) (name : String) (costA : CostArgs) (dimA : DimArgs)
    (h1 : name ≠ "get_cost_and_usage") (h2 : name ≠ "get_dimension_values") :
    handle_call_tool deps name costA dimA =
      .content [errorText ("Unknown tool: " ++ name)] := by
  simp [handle_call_tool, tool_attempt, h1, h2]

/-- Witness for C10 at a concrete unknown tool name. -/
theorem C10_unknown_tool_witness :
    handle_call_tool stubDeps "list_invoices" stubCostArgs stubDimArgs =
      .content [errorText "Unknown tool: list_invoices"] :=
  C10_unknown_tool stubDeps "list_invoices" stubCostArgs stubDimArgs
    (by decide) (by decide)

/-- C1: the dispatch handler only catches `AWSCostExplorerError` and
`ValueError`. A `get_cost_and_usage` call whose `filter_config` lacks the
`"dimension"` key makes `_build_cost_request` raise `KeyError`, which
escapes `handle_call_tool` instead of being flattened to an error
envelope. -/
theorem C1_counterexample :
    handle_call_tool stubDeps "get_cost_and_usage"
      { start := some "2024-01-01", endDate := some "2024-01-02", granularity := none,
        group_by := none, metrics := none,
        filter_config := some [("values", .arr [])], next_page_token := none }
      stubDimArgs =
      .raised (.keyError "dimension") := rfl

/-- C1 (amended): every pipeline failure raised as `AWSCostExplorerError`
or `ValueError` — which covers the whole error taxonomy the system
defines: invalid input, provider errors, missing credentials, unknown
tool — is returned as the single-field error envelope, with no other
content alongside it; a successful pipeline returns exactly its
serialized result. Failures of other exception types propagate (see the
counterexample). -/
theorem C1_dispatch_error_flattening (deps : Deps) (name : String)
    (costA : CostArgs) (dimA : DimArgs) :
    (∀ msg, tool_attempt deps name costA dimA = .error (.awsError msg) →
      handle_call_tool deps name costA dimA = .content [errorText msg]) ∧
    (∀ msg, tool_attempt deps name costA dimA = .error (.valueError msg) →
      handle_call_tool deps name costA dimA = .content [errorText msg]) ∧
    (∀ text, tool_attempt deps name costA dimA = .ok text →
      handle_call_tool deps name costA dimA = .content [text]) := by
  refine ⟨fun msg hx => ?_, fun msg hx => ?_, fun text hx => ?_⟩ <;>
    simp [handle_call_tool, hx]

/-- Witness for C1 at a concrete invalid-granularity failure. -/
theorem C1_dispatch_error_flattening_witness :
    handle_call_tool stubDeps "get_cost_and_usage"
      { stubCostArgs with granularity := some "HOURLY" } stubDimArgs =
      .content [errorText "granularity must be \x27DAILY\x27 or \x27MONTHLY\x27"] :=
  (C1_dispatch_error_flattening stubDeps "get_cost_and_usage"
    { stubCostArgs with granularity := some "HOURLY" } stubDimArgs).1 _ rfl

/-- C4: a `get_dimension_values` call with dimension `"INVALID"` fails
validation before the request is built, so the dispatch result is the
error envelope naming the allow-list, identically for every provider —
no provider interaction can occur. -/
theorem C4_invalid_dimension_rejected (deps : Deps) (costA : CostArgs)
    (tps tpe ss tok : Option String) (mr : Option Int) :
    handle_call_tool deps "get_dimension_values" costA
      { dimension := "INVALID", time_period_start := tps, time_period_end := tpe,
        search_string := ss, max_results := mr, next_page_token := tok } =
      .content [errorText ("Invalid dimension: INVALID. Allowed: " ++
        pyListRepr DIMENSIONS_ALLOWED)] := rfl

/-- C6: the formatter prefers a provider-supplied `TimePeriod` over the
resolved one, so a response carrying its own `TimePeriod` is not echoed
back as the resolved `time_period`. -/
theorem C6_counterexample :
    format_cost_response
        [("TimePeriod", .obj [("Start", .str "1999-01-01"), ("End", .str "1999-01-02")])]
        "2024-01-01" "2024-01-02" "DAILY" ["UnblendedCost"] none =
      .ok [("time_period", .obj [("Start", .str "1999-01-01"), ("End", .str "1999-01-02")]),
           ("granularity", .str "DAILY"),
           ("metrics", .arr [.str "UnblendedCost"]),
           ("group_by", .arr []),
           ("results_by_time", .arr []),
           ("next_page_token", .null),
           ("total_results", .int 0)] ∧
    Jval.obj [("Start", .str "1999-01-01"), ("End", .str "1999-01-02")] ≠
      Jval.obj [("start", .str "2024-01-01"), ("end", .str "2024-01-02")] :=
  ⟨rfl, by simp⟩

/-- C6 (amended): formatting a cost response yields `total_results` equal
to the number of records in `ResultsByTime` (whatever other counts the
provider supplies), echoes `granularity`, `metrics` and `group_by`
(defaulted to the empty sequence), keeps the pagination token verbatim
with an explicit null when absent, and sets `time_period` to the
provider-supplied `TimePeriod` when present, falling back to the resolved
`\x7bstart, end\x7d` otherwise. -/
theorem C6_cost_response_shape (response : PyDict) (start end_ granularity : String)
    (metrics : List String) (group_by : Option (List String)) (rs : List Jval)
    (h : (response.lookup "ResultsByTime").getD (.arr []) = .arr rs) :
    format_cost_response response start end_ granularity metrics group_by =
      .ok [("time_period", (response.lookup "TimePeriod").getD
              (.obj [("start", .str start), ("end", .str end_)])),
           ("granularity", .str granularity),
           ("metrics", .arr (metrics.map Jval.str)),
           ("group_by", .arr ((group_by.getD []).map Jval.str)),
           ("results_by_time", .arr rs),
           ("next_page_token", (response.lookup "NextPageToken").getD .null),
           ("total_results", .int (rs.length : Int))] := by
  unfold format_cost_response
  rw [h]
  rfl

/-- Witness for C6: three records and a decoy provider count give
`total_results = 3`. -/
theorem C6_cost_response_shape_witness :
    format_cost_response
        [("ResultsByTime", .arr [.null, .null, .null]), ("TotalResults", .int 999)]
        "2024-01-01" "2024-01-02" "DAILY" ["BlendedCost"] none =
      .ok [("time_period", .obj [("start", .str "2024-01-01"), ("end", .str "2024-01-02")]),
           ("granularity", .str "DAILY"),
           ("metrics", .arr [.str "BlendedCost"]),
           ("group_by", .arr []),
           ("results_by_time", .arr [.null, .null, .null]),
           ("next_page_token", .null),
           ("total_results", .int 3)] :=
  C6_cost_response_shape
    [("ResultsByTime", .arr [.null, .null, .null]), ("TotalResults", .int 999)]
    "2024-01-01" "2024-01-02" "DAILY" ["BlendedCost"] none [.null, .null, .null] rfl

/-- C9: an empty-string pagination token or search string is falsy in
Python, so the built requests are identical to those built with the
argument absent — the corresponding field is omitted. -/
theorem C9_empty_string_treated_as_absent (start end_ granularity dim tps tpe : String)
    (group_by : Option (List String)) (metrics : List String)
    (filter_config : Option PyDict) (mr : Int) (ss tok : Option String) :
    build_cost_request start end_ granularity group_by metrics filter_config (some "") =
      build_cost_request start end_ granularity group_by metrics filter_config none ∧
    build_dimension_request dim tps tpe (some "") mr tok =
      build_dimension_request dim tps tpe none mr tok ∧
    build_dimension_request dim tps tpe ss mr (some "") =
      build_dimension_request dim tps tpe ss mr none := by
  refine ⟨?_, ?_, ?_⟩ <;>
    simp [build_cost_request, build_dimension_request, strTruthy]

/-- C5: every successfully built cost request carries the three mandatory
fields; `GroupBy` is present exactly for a truthy `group_by`, holding
`\x7bType: DIMENSION, Key: d\x7d` entries for at most the first two
dimensions; `Filter` is present exactly for a truthy `filter_config`,
with `Values` defaulting to the empty sequence; `NextPageToken` is
present exactly for a truthy token; absent fields have no key at all
(never a null value). -/
theorem C5_build_cost_request_fields (start end_ granularity : String)
    (group_by : Option (List String)) (metrics : List String)
    (filter_config : Option PyDict) (next_page_token : Option String) (req : PyDict)
    (h : build_cost_request start end_ granularity group_by metrics filter_config
      next_page_token = .ok req) :
    (req.lookup "TimePeriod" = some (.obj [("Start", .str start), ("End", .str end_)]) ∧
     req.lookup "Granularity" = some (.str granularity) ∧
     req.lookup "Metrics" = some (.arr (metrics.map Jval.str))) ∧
    ((group_by = none ∨ group_by = some [] → req.lookup "GroupBy" = none) ∧
     (∀ l, group_by = some l → l ≠ [] →
        req.lookup "GroupBy" = some (.arr ((l.take 2).map
          (fun dimension => .obj [("Type", .str "DIMENSION"), ("Key", .str dimension)]))))) ∧
    ((filter_config = none ∨ filter_config = some [] → req.lookup "Filter" = none) ∧
     (∀ fc kv, filter_config = some fc → fc ≠ [] → fc.lookup "dimension" = some kv →
        req.lookup "Filter" = some (.obj [("Dimensions", .obj
          [("Key", kv), ("Values", (fc.lookup "values").getD (.arr [])),
           ("MatchOptions", .arr [.str "EQUALS"])])]))) ∧
    ((next_page_token = none ∨ next_page_token = some "" →
        req.lookup "NextPageToken" = none) ∧
     (∀ t, next_page_token = some t → t ≠ "" →
        req.lookup "NextPageToken" = some (.str t))) := by
  unfold build_cost_request at h
  rcases group_by with _ | gb <;> rcases filter_config with _ | fc <;>
    rcases next_page_token with _ | t <;>
    simp only [] at h <;>
    (repeat' split at h) <;>
    first
      | exact Except.noConfusion h
      | (cases h
         simp_all [List.lookup, strTruthy] <;>
           (rintro _ kv rfl hne hl
            simp_all))

/-- Witness for C5 at a concrete request with two group-by dimensions,
a service filter and an empty-string page token. -/
theorem C5_build_cost_request_fields_witness :
    ([("TimePeriod", .obj [("Start", .str "2023-01-01"), ("End", .str "2023-01-02")]),
      ("Granularity", .str "DAILY"),
      ("Metrics", .arr [.str "UnblendedCost"]),
      ("GroupBy", .arr [.obj [("Type", .str "DIMENSION"), ("Key", .str "SERVICE")],
                        .obj [("Type", .str "DIMENSION"), ("Key", .str "REGION")]]),
      ("Filter", .obj [("Dimensions", .obj [("Key", .str "SERVICE"),
        ("Values", .arr [.str "Amazon EC2"]),
        ("MatchOptions", .arr [.str "EQUALS"])])])] : PyDict).lookup "GroupBy" =
        some (.arr [.obj [("Type", .str "DIMENSION"), ("Key", .str "SERVICE")],
                    .obj [("Type", .str "DIMENSION"), ("Key", .str "REGION")]]) ∧
    ([("TimePeriod", .obj [("Start", .str "2023-01-01"), ("End", .str "2023-01-02")]),
      ("Granularity", .str "DAILY"),
      ("Metrics", .arr [.str "UnblendedCost"]),
      ("GroupBy", .arr [.obj [("Type", .str "DIMENSION"), ("Key", .str "SERVICE")],
                        .obj [("Type", .str "DIMENSION"), ("Key", .str "REGION")]]),
      ("Filter", .obj [("Dimensions", .obj [("Key", .str "SERVICE"),
        ("Values", .arr [.str "Amazon EC2"]),
        ("MatchOptions", .arr [.str "EQUALS"])])])] : PyDict).lookup "NextPageToken" =
      none := by
  have hc := C5_build_cost_request_fields "2023-01-01" "2023-01-02" "DAILY"
    (some ["SERVICE", "REGION"]) ["UnblendedCost"]
    (some [("dimension", .str "SERVICE"), ("values", .arr [.str "Amazon EC2"])])
    (some "")
    [("TimePeriod", .obj [("Start", .str "2023-01-01"), ("End", .str "2023-01-02")]),
     ("Granularity", .str "DAILY"),
     ("Metrics", .arr [.str "UnblendedCost"]),
     ("GroupBy", .arr [.obj [("Type", .str "DIMENSION"), ("Key", .str "SERVICE")],
                       .obj [("Type", .str "DIMENSION"), ("Key", .str "REGION")]]),
     ("Filter", .obj [("Dimensions", .obj [("Key", .str "SERVICE"),
       ("Values", .arr [.str "Amazon EC2"]),
       ("MatchOptions", .arr [.str "EQUALS"])])])] rfl
  exact ⟨hc.2.1.2 ["SERVICE", "REGION"] rfl (by simp),
         hc.2.2.2.1 (Or.inr rfl)⟩

end AwsMcp
